/-
  Verification of the wasmer python extension's function-call bridge and
  typed memory views, as a shallow embedding of:
    - src/src/instance/exports.rs      (legacy export dispatcher, pyo3)
    - src/src/memory_view.rs           (typed memory views, cpython macro)
    - src/packages/api/src/externals/function.rs (api Function: import bridge
      and export call)

  Machine integers are modelled as Int/Nat with explicit range checks where
  the source checks them; floating-point payloads are modelled as opaque bit
  patterns (no claim under scrutiny depends on float arithmetic, only on
  which conversions succeed and what shapes results take).
-/

import Mathlib

/-- `wasmer::Type` (wasmer_runtime_core::types::Type): the WebAssembly value
kinds handled by the bridge. -/
inductive WasmType where
  | I32
  | I64
  | F32
  | F64
  | V128
deriving DecidableEq

/-- `wasmer::Value` / `wasmer_runtime::Value`: a tagged WebAssembly value.
Integer payloads are `Int` (ranges are enforced at the conversion sites that
enforce them in the source); float payloads are opaque bit patterns. -/
inductive WasmValue where
  | i32 (value : Int)
  | i64 (value : Int)
  | f32 (bits : Nat)
  | f64 (bits : Nat)
  | v128 (value : Nat)
deriving DecidableEq

/-- The kind of a Python exception raised by the bridge (pyo3's exception
classes, as used in the source). -/
inductive PyErrKind where
  | runtimeKind
  | lookupKind
  | valueKind
  | typeKind
  | overflowKind
deriving DecidableEq

/-- A Python exception: its class together with its rendered message. -/
structure PyErr where
  kind : PyErrKind
  message : String
deriving DecidableEq

/-- `RuntimeError::py_err(message)` / `to_py_err::<PyRuntimeError, _>(message)`. -/
def py_runtime_error (message : String) : PyErr :=
  { kind := PyErrKind.runtimeKind, message := message }

/-- A pyo3 downcast failure (`downcast_ref::<...>()?`); the message stands for
pyo3's generated text. -/
def py_type_error (message : String) : PyErr :=
  { kind := PyErrKind.typeKind, message := message }

/-- A pyo3 numeric extraction overflow (`extract::<iN>()?` out of range); the
message stands for pyo3's generated text. -/
def py_overflow_error (message : String) : PyErr :=
  { kind := PyErrKind.overflowKind, message := message }

/-- The dynamic Python values the bridge inspects: `None`, `int`, `float`
(opaque bits), tuples, the crate's pre-tagged `Value` wrapper, and anything
else (`foreign`). -/
inductive PyObject where
  | none
  | int (value : Int)
  | float (bits : Nat)
  | tuple (items : List PyObject)
  | wasmValue (value : WasmValue)
  | foreign (description : String)

/-- `wasmer::RuntimeError`: the runtime-level trap value a host function
returns to the WebAssembly engine on failure. -/
structure WasmerRuntimeError where
  message : String
deriving DecidableEq

/-- `io::Error::from(error).to_string()` as used in function.rs: renders a
Python exception into the message carried by the trap. -/
def io_error_string (error : PyErr) : String :=
  error.message

/-- `collect::<Result<_, _>>()` over a mapped iterator: stops at the first
error, otherwise collects every mapped value in order. -/
def mapM_except {α β ε : Type} (g : α → Except ε β) : List α → Except ε (List β)
  | [] => Except.ok []
  | a :: l =>
    match g a with
    | Except.error e => Except.error e
    | Except.ok b =>
      match mapM_except g l with
      | Except.error e => Except.error e
      | Except.ok bs => Except.ok (b :: bs)

/-- Modelled from the spec: `to_py_object` lives in
src/packages/api/src/values.rs, which is not under src/. Spec section 4.1:
`toHostValue(TypedValue) -> HostValue`, conversion to a host value always
succeeds; 128-bit vectors use the widest unsigned integer host
representation. -/
def to_py_object_api : WasmValue → PyObject
  | WasmValue.i32 value => PyObject.int value
  | WasmValue.i64 value => PyObject.int value
  | WasmValue.f32 bits => PyObject.float bits
  | WasmValue.f64 bits => PyObject.float bits
  | WasmValue.v128 value => PyObject.int value

/-- Message standing in for pyo3's overflow text at numeric extraction. -/
def overflow_message : String :=
  "argument out of range for the expected WebAssembly type"

/-- Message standing in for pyo3's downcast failure text. -/
def downcast_message : String :=
  "argument does not match the expected Python type"

/-- Modelled from the spec: `to_wasm_value` lives in
src/packages/api/src/values.rs, which is not under src/. Spec sections 4.1
and 4.4 step 3: a pre-tagged TypedValue is used as-is; otherwise the raw host
value is coerced against the expected kind, failing with a ConversionError on
a dynamic-type mismatch or numeric overflow. -/
def to_wasm_value_api (value : PyObject) (ty : WasmType) : Except PyErr WasmValue :=
  match value with
  | PyObject.wasmValue tagged => Except.ok tagged
  | _ =>
    match ty, value with
    | WasmType.I32, PyObject.int v =>
      if -(2 ^ 31) ≤ v ∧ v < 2 ^ 31 then Except.ok (WasmValue.i32 v)
      else Except.error (py_overflow_error overflow_message)
    | WasmType.I64, PyObject.int v =>
      if -(2 ^ 63) ≤ v ∧ v < 2 ^ 63 then Except.ok (WasmValue.i64 v)
      else Except.error (py_overflow_error overflow_message)
    | WasmType.F32, PyObject.float bits => Except.ok (WasmValue.f32 bits)
    | WasmType.F64, PyObject.float bits => Except.ok (WasmValue.f64 bits)
    | WasmType.V128, PyObject.int v =>
      if 0 ≤ v ∧ v < 2 ^ 128 then Except.ok (WasmValue.v128 v.toNat)
      else Except.error (py_overflow_error overflow_message)
    | _, _ => Except.error (py_type_error downcast_message)

/-- exports.rs lines 158 to 165: mapping a WebAssembly result back to a
Python object (`result.to_object(py)` per value kind). -/
def wasm_to_py_object : WasmValue → PyObject
  | WasmValue.i32 value => PyObject.int value
  | WasmValue.i64 value => PyObject.int value
  | WasmValue.f32 bits => PyObject.float bits
  | WasmValue.f64 bits => PyObject.float bits
  | WasmValue.v128 value => PyObject.int value

/-- exports.rs lines 135 to 147: coercion of one Python argument against one
declared parameter type. A pre-tagged `Value` is used as-is; otherwise the
argument is downcast per the parameter kind and extracted with a range
check. -/
def py_to_wasm_argument (parameter : WasmType) (argument : PyObject) : Except PyErr WasmValue :=
  match argument with
  | PyObject.wasmValue value => Except.ok value
  | _ =>
    match parameter, argument with
    | WasmType.I32, PyObject.int v =>
      if -(2 ^ 31) ≤ v ∧ v < 2 ^ 31 then Except.ok (WasmValue.i32 v)
      else Except.error (py_overflow_error overflow_message)
    | WasmType.I64, PyObject.int v =>
      if -(2 ^ 63) ≤ v ∧ v < 2 ^ 63 then Except.ok (WasmValue.i64 v)
      else Except.error (py_overflow_error overflow_message)
    | WasmType.F32, PyObject.float bits => Except.ok (WasmValue.f32 bits)
    | WasmType.F64, PyObject.float bits => Except.ok (WasmValue.f64 bits)
    | WasmType.V128, PyObject.int v =>
      if 0 ≤ v ∧ v < 2 ^ 128 then Except.ok (WasmValue.v128 v.toNat)
      else Except.error (py_overflow_error overflow_message)
    | _, _ => Except.error (py_type_error downcast_message)

/-- exports.rs line 116: the missing-arguments message, exactly as formatted
by the source. -/
def missing_arguments_message (function_name : String) (expected given : Int) : String :=
  "Missing " ++ toString (expected - given) ++ " argument(s) when calling `" ++
    function_name ++ "`: Expect " ++ toString expected ++ " argument(s), given " ++
    toString given ++ "."

/-- exports.rs line 122: the extra-arguments message, exactly as formatted by
the source (`diff.abs()` of the negative difference). -/
def extra_arguments_message (function_name : String) (expected given : Int) : String :=
  "Given " ++ toString (given - expected) ++ " extra argument(s) when calling `" ++
    function_name ++ "`: Expect " ++ toString expected ++ " argument(s), given " ++
    toString given ++ "."

/-- exports.rs lines 99 to 169, `call_dyn_func`: the legacy export
dispatcher. `function_call_impl` stands for the runtime collaborator
`DynFunc::call` (external interface, spec section 6); its error is rendered
through `format!` into a Python RuntimeError, and only the first result is
mapped back (the source comments: "Map the WebAssembly first result to a
Python value."). -/
def call_dyn_func
    (function_name_as_str : String)
    (parameters : List WasmType)
    (function_call_impl : List WasmValue → Except WasmerRuntimeError (List WasmValue))
    (arguments : List PyObject) : Except PyErr PyObject :=
  let number_of_parameters : Int := parameters.length
  let number_of_arguments : Int := arguments.length
  let diff : Int := number_of_parameters - number_of_arguments
  if 0 < diff then
    Except.error (py_runtime_error
      (missing_arguments_message function_name_as_str number_of_parameters number_of_arguments))
  else if diff < 0 then
    Except.error (py_runtime_error
      (extra_arguments_message function_name_as_str number_of_parameters number_of_arguments))
  else
    match mapM_except (fun p => py_to_wasm_argument p.1 p.2) (parameters.zip arguments) with
    | Except.error e => Except.error e
    | Except.ok function_arguments =>
      match function_call_impl function_arguments with
      | Except.error e => Except.error (py_runtime_error e.message)
      | Except.ok results =>
        match results with
        | [] => Except.ok PyObject.none
        | result :: _ => Except.ok (wasm_to_py_object result)

/-- function.rs lines 203 to 229, `Function::__call__`: the api-level call of
a function from Python. Each supplied argument is zipped against the declared
parameter types and converted; the runtime call (`function_call_impl`, the
external `wasmer::Function::call`) has its trap mapped to a Python
RuntimeError; the result shape follows `results.len()`. -/
def Function_call
    (params : List WasmType)
    (function_call_impl : List WasmValue → Except WasmerRuntimeError (List WasmValue))
    (arguments : List PyObject) : Except PyErr PyObject :=
  match mapM_except (fun p => to_wasm_value_api p.1 p.2) (arguments.zip params) with
  | Except.error e => Except.error e
  | Except.ok wasm_arguments =>
    match function_call_impl wasm_arguments with
    | Except.error trap => Except.error (py_runtime_error trap.message)
    | Except.ok results =>
      match results with
      | [] => Except.ok PyObject.none
      | [result] => Except.ok (to_py_object_api result)
      | manyResults => Except.ok (PyObject.tuple (manyResults.map to_py_object_api))

/-- function.rs lines 148 to 197: the host closure registered through
`wasmer::Function::new_with_env`. It converts the incoming WebAssembly
arguments to Python objects, invokes the Python callable, and interprets the
returned Python value against the declared result types; every Python
exception is mapped into a `wasmer::RuntimeError` trap. -/
def host_function_closure
    (py_function : List PyObject → Except PyErr PyObject)
    (result_types : List WasmType)
    (arguments : List WasmValue) : Except WasmerRuntimeError (List WasmValue) :=
  let py_arguments := arguments.map to_py_object_api
  match py_function py_arguments with
  | Except.error e => Except.error { message := io_error_string e }
  | Except.ok results =>
    match results with
    | PyObject.tuple items =>
      match mapM_except (fun p => to_wasm_value_api p.1 p.2) (items.zip result_types) with
      | Except.error e => Except.error { message := io_error_string e }
      | Except.ok values => Except.ok values
    | PyObject.none => Except.ok []
    | single =>
      match result_types with
      | [] => Except.ok []
      | ty :: _ =>
        match to_wasm_value_api single ty with
        | Except.error e => Except.error { message := io_error_string e }
        | Except.ok value => Except.ok [value]

/-- A single-quote character, used to spell the Python class tokens without a
literal apostrophe. -/
def single_quote_string : String := (Char.ofNat 39).toString

/-- The string rendering of Python's native integer class annotation. -/
def py_int_class_token : String :=
  "<class " ++ single_quote_string ++ "int" ++ single_quote_string ++ ">"

/-- The string rendering of Python's native float class annotation. -/
def py_float_class_token : String :=
  "<class " ++ single_quote_string ++ "float" ++ single_quote_string ++ ">"

/-- function.rs lines 113 to 125: the annotation-token lookup used by
`Function::new` when inferring a signature from `__annotations__`. -/
def annotation_value_to_type (annotation_value : String) : Except PyErr WasmType :=
  if annotation_value = "i32" ∨ annotation_value = "I32" ∨
      annotation_value = py_int_class_token then
    Except.ok WasmType.I32
  else if annotation_value = "i64" ∨ annotation_value = "I64" then
    Except.ok WasmType.I64
  else if annotation_value = "f32" ∨ annotation_value = "F32" ∨
      annotation_value = py_float_class_token then
    Except.ok WasmType.F32
  else if annotation_value = "f64" ∨ annotation_value = "F64" then
    Except.ok WasmType.F64
  else
    Except.error (py_runtime_error
      ("Type `" ++ annotation_value ++ "` is not a supported type"))

/-- Little-endian decoding of a byte list into an unsigned value
(`Cell<T>::get` reading a `T` back from its bytes). -/
def decode_le : List Nat → Nat
  | [] => 0
  | b :: bs => b + 256 * decode_le bs

/-- Little-endian encoding of the low `width` bytes of an unsigned value
(`Cell<T>::set` storing a `T` into its bytes). -/
def encode_le : Nat → Nat → List Nat
  | 0, _ => []
  | width + 1, value => value % 256 :: encode_le width (value / 256)

/-- Reading the typed-view element at element index `element` of width
`element_size` from the linear memory bytes. -/
def read_element (element_size : Nat) (memory : List Nat) (element : Nat) : Nat :=
  decode_le ((memory.drop (element * element_size)).take element_size)

/-- Writing the typed-view element at element index `element`. -/
def write_element (element_size : Nat) (memory : List Nat) (element value : Nat) : List Nat :=
  memory.take (element * element_size) ++ encode_le element_size value ++
    memory.drop (element * element_size + element_size)

/-- memory_view.rs lines 16 to 20, `length`: the typed view
`view::<T>()` has `memory.length / size_of::<T>()` elements; the source takes
the sub-slice `[offset..]` (a Rust slice panic, modelled as `none`, if the
offset exceeds the element count) and divides its length by `size_of::<T>()`
once more. -/
def memory_view_length (element_size : Nat) (memory : List Nat) (offset : Nat) : Option Nat :=
  let element_count := memory.length / element_size
  if offset ≤ element_count then some ((element_count - offset) / element_size)
  else none

/-- memory_view.rs lines 22 to 27, `get`: the index is first divided by
`size_of::<T>()`, then the typed view is indexed at `offset + index` (a Rust
slice panic, modelled as `none`, when that element is out of the view). -/
def memory_view_get (element_size : Nat) (memory : List Nat) (offset index : Nat) : Option Nat :=
  let index := index / element_size
  let element_count := memory.length / element_size
  if offset + index < element_count then
    some (read_element element_size memory (offset + index))
  else none

/-- memory_view.rs lines 29 to 36, `set`: same index computation as `get`,
writing the element instead of reading it. -/
def memory_view_set (element_size : Nat) (memory : List Nat) (offset index value : Nat) :
    Option (List Nat) :=
  let index := index / element_size
  let element_count := memory.length / element_size
  if offset + index < element_count then
    some (write_element element_size memory (offset + index) value)
  else none

/-- Two's-complement reading of a stored unsigned element pattern as the
signed value of the given width (`as $wasm_type` on a signed view). -/
def to_signed (element_size : Nat) (stored : Nat) : Int :=
  if stored < 2 ^ (8 * element_size - 1) then (stored : Int)
  else (stored : Int) - 2 ^ (8 * element_size)

/-- Two's-complement storage pattern of a signed value of the given width. -/
def to_unsigned (element_size : Nat) (value : Int) : Nat :=
  (value % ((2 : Int) ^ (8 * element_size))).toNat

/-- `get` on a signed view (Int8/Int16/Int32): the stored pattern read back
as a signed value. -/
def memory_view_get_signed (element_size : Nat) (memory : List Nat) (offset index : Nat) :
    Option Int :=
  (memory_view_get element_size memory offset index).map (to_signed element_size)

/-- `set` on a signed view (Int8/Int16/Int32): the signed value stored as its
two's-complement pattern. -/
def memory_view_set_signed (element_size : Nat) (memory : List Nat) (offset index : Nat)
    (value : Int) : Option (List Nat) :=
  memory_view_set element_size memory offset index (to_unsigned element_size value)

/-- The specification's memory-view length, following its words: the count of
whole elements of the configured width available past the byte offset, given
the buffer's current byte length. -/
def spec_view_length (element_size : Nat) (memory_length : Nat) (offset : Nat) : Option Nat :=
  if offset ≤ memory_length then some ((memory_length - offset) / element_size)
  else none

/-- The specification's memory-view read, following its words: the access
touches bytes `offset + index * elementWidth` up to the element width, and is
rejected against the buffer's current length before any read. -/
def spec_view_get (element_size : Nat) (memory : List Nat) (offset index : Nat) : Option Nat :=
  if offset + index * element_size + element_size ≤ memory.length then
    some (decode_le ((memory.drop (offset + index * element_size)).take element_size))
  else none

/-- The specification's memory-view write, following its words: same location
computation and bounds check as `spec_view_get`, writing instead. -/
def spec_view_set (element_size : Nat) (memory : List Nat) (offset index value : Nat) :
    Option (List Nat) :=
  if offset + index * element_size + element_size ≤ memory.length then
    some (memory.take (offset + index * element_size) ++ encode_le element_size value ++
      memory.drop (offset + index * element_size + element_size))
  else none

theorem encode_le_length (width value : Nat) : (encode_le width value).length = width := by
  induction width generalizing value with
  | zero => rfl
  | succ w ih => simp [encode_le, ih]

theorem decode_encode_le (width value : Nat) (h : value < 256 ^ width) :
    decode_le (encode_le width value) = value := by
  induction width generalizing value with
  | zero =>
    simp [pow_zero] at h
    simp [h, encode_le, decode_le]
  | succ w ih =>
    have hdiv : value / 256 < 256 ^ w := by
      rw [Nat.div_lt_iff_lt_mul (by omega : 0 < 256)]
      calc value < 256 ^ (w + 1) := h
        _ = 256 ^ w * 256 := by rw [pow_succ]
    simp only [encode_le, decode_le, ih (value / 256) hdiv]
    omega

theorem write_element_length (element_size : Nat) (memory : List Nat) (element value : Nat)
    (h : element * element_size + element_size ≤ memory.length) :
    (write_element element_size memory element value).length = memory.length := by
  simp only [write_element, List.length_append, List.length_take, List.length_drop,
    encode_le_length]
  omega

theorem read_write_element (element_size : Nat) (memory : List Nat) (element value : Nat)
    (h : element * element_size + element_size ≤ memory.length) :
    read_element element_size (write_element element_size memory element value) element =
      decode_le (encode_le element_size value) := by
  have htake : (memory.take (element * element_size)).length = element * element_size := by
    rw [List.length_take]
    omega
  have henc : (encode_le element_size value).length = element_size :=
    encode_le_length element_size value
  simp only [read_element, write_element]
  rw [List.append_assoc, List.drop_left' htake, List.take_left' henc]

theorem zip_take_of_le {α β : Type} (n : Nat) (l : List α) (l2 : List β)
    (h : l2.length ≤ n) : (l.take n).zip l2 = l.zip l2 := by
  induction n generalizing l l2 with
  | zero =>
    cases l2 with
    | nil => simp
    | cons b t2 => simp at h
  | succ n ih =>
    cases l with
    | nil => simp
    | cons a t =>
      cases l2 with
      | nil => simp
      | cons b t2 =>
        simp only [List.take_succ_cons, List.zip_cons_cons]
        rw [ih t t2 (by simpa using h)]

theorem mapM_except_ok_length {α β ε : Type} (g : α → Except ε β) (l : List α)
    (out : List β) (h : mapM_except g l = Except.ok out) : out.length = l.length := by
  induction l generalizing out with
  | nil =>
    simp only [mapM_except, Except.ok.injEq] at h
    simp [← h]
  | cons a t ih =>
    simp only [mapM_except] at h
    cases hga : g a with
    | error e => rw [hga] at h; exact absurd h (by simp)
    | ok b =>
      rw [hga] at h
      cases hmt : mapM_except g t with
      | error e => rw [hmt] at h; exact absurd h (by simp)
      | ok bs =>
        rw [hmt] at h
        simp only [Except.ok.injEq] at h
        simp [← h, ih bs hmt]

theorem to_unsigned_lt (element_size : Nat) (value : Int) :
    to_unsigned element_size value < 2 ^ (8 * element_size) := by
  have hpos : (0 : Int) < (2 : Int) ^ (8 * element_size) := by positivity
  have hmod : value % ((2 : Int) ^ (8 * element_size)) < (2 : Int) ^ (8 * element_size) :=
    Int.emod_lt_of_pos value hpos
  have : ((to_unsigned element_size value : Nat) : Int) < ((2 ^ (8 * element_size) : Nat) : Int) := by
    rw [to_unsigned]
    push_cast
    calc ((value % ((2 : Int) ^ (8 * element_size))).toNat : Int)
        = value % ((2 : Int) ^ (8 * element_size)) :=
          Int.toNat_of_nonneg (Int.emod_nonneg value (by positivity))
      _ < (2 : Int) ^ (8 * element_size) := hmod
  exact_mod_cast this

theorem to_signed_to_unsigned (element_size : Nat) (hw : 1 ≤ element_size) (value : Int)
    (h1 : -(2 ^ (8 * element_size - 1)) ≤ value) (h2 : value < 2 ^ (8 * element_size - 1)) :
    to_signed element_size (to_unsigned element_size value) = value := by
  have hsplit : 8 * element_size - 1 + 1 = 8 * element_size := by omega
  have hInt : (2 : Int) ^ (8 * element_size) = 2 ^ (8 * element_size - 1) * 2 := by
    rw [← pow_succ, hsplit]
  have hKpos : (0 : Int) < 2 ^ (8 * element_size - 1) := by positivity
  have hMpos : (0 : Int) < (2 : Int) ^ (8 * element_size) := by positivity
  rcases le_or_lt 0 value with h0 | h0
  · have hvM : value < (2 : Int) ^ (8 * element_size) := by
      rw [hInt]; linarith
    have hmod : value % ((2 : Int) ^ (8 * element_size)) = value :=
      Int.emod_eq_of_lt h0 hvM
    have hcast : ((to_unsigned element_size value : Nat) : Int) = value := by
      rw [to_unsigned, hmod, Int.toNat_of_nonneg h0]
    rw [to_signed, if_pos]
    · exact hcast
    · have : ((to_unsigned element_size value : Nat) : Int) <
          (((2 : Nat) ^ (8 * element_size - 1) : Nat) : Int) := by
        push_cast
        rw [hcast]
        exact h2
      exact_mod_cast this
  · have e1 : (value + (2 : Int) ^ (8 * element_size)) % ((2 : Int) ^ (8 * element_size)) =
        value % ((2 : Int) ^ (8 * element_size)) := by
      simp [Int.add_mul_emod_self_left (a := value) (b := (2 : Int) ^ (8 * element_size))
        (c := 1)]
    have e2 : (value + (2 : Int) ^ (8 * element_size)) % ((2 : Int) ^ (8 * element_size)) =
        value + (2 : Int) ^ (8 * element_size) :=
      Int.emod_eq_of_lt (by rw [hInt]; linarith) (by linarith)
    have hmod : value % ((2 : Int) ^ (8 * element_size)) =
        value + (2 : Int) ^ (8 * element_size) := by rw [← e1, e2]
    have hcast : ((to_unsigned element_size value : Nat) : Int) =
        value + (2 : Int) ^ (8 * element_size) := by
      rw [to_unsigned, hmod, Int.toNat_of_nonneg (by rw [hInt]; linarith)]
    rw [to_signed, if_neg]
    · rw [hcast]; ring
    · intro hlt
      have : ((to_unsigned element_size value : Nat) : Int) <
          (((2 : Nat) ^ (8 * element_size - 1) : Nat) : Int) := by exact_mod_cast hlt
      push_cast at this
      rw [hcast, hInt] at this
      linarith

theorem set_get_raw (element_size : Nat) (_hw : 1 ≤ element_size) (memory : List Nat)
    (offset index n : Nat)
    (hlen : memory_view_length element_size memory offset = some n) (hindex : index < n)
    (value : Nat) (hvalue : value < 2 ^ (8 * element_size)) :
    ∃ memory2,
      memory_view_set element_size memory offset index value = some memory2 ∧
        memory_view_get element_size memory2 offset index = some value := by
  simp only [memory_view_length] at hlen
  by_cases hoff : offset ≤ memory.length / element_size
  · rw [if_pos hoff] at hlen
    have hn : n = (memory.length / element_size - offset) / element_size := by
      injection hlen with h
      omega
    have hd_le : index / element_size ≤ index := Nat.div_le_self index element_size
    have hAw : (memory.length / element_size - offset) / element_size ≤
        memory.length / element_size - offset :=
      Nat.div_le_self _ element_size
    have hbound : offset + index / element_size < memory.length / element_size := by omega
    have hbyte : (offset + index / element_size) * element_size + element_size ≤
        memory.length := by
      have h1 : (offset + index / element_size + 1) * element_size ≤
          (memory.length / element_size) * element_size :=
        Nat.mul_le_mul_right element_size (by omega)
      have h2 : (memory.length / element_size) * element_size ≤ memory.length :=
        Nat.div_mul_le_self memory.length element_size
      calc (offset + index / element_size) * element_size + element_size
          = (offset + index / element_size + 1) * element_size := by ring
        _ ≤ (memory.length / element_size) * element_size := h1
        _ ≤ memory.length := h2
    refine ⟨write_element element_size memory (offset + index / element_size) value, ?_, ?_⟩
    · rw [memory_view_set]
      simp only [if_pos hbound]
    · have hlen2 : (write_element element_size memory (offset + index / element_size)
          value).length = memory.length :=
        write_element_length element_size memory _ value hbyte
      rw [memory_view_get]
      simp only [hlen2, if_pos hbound]
      rw [read_write_element element_size memory _ value hbyte]
      rw [decode_encode_le element_size value]
      rw [show (256 : Nat) = 2 ^ 8 from rfl, ← pow_mul]
      exact hvalue
  · rw [if_neg hoff] at hlen
    exact absurd hlen (by simp)

/-- C5: the claim states that `length()` returns the count of whole elements
of width `w` in the buffer's current size past the offset. The code divides
the typed view's element count (already `L / w`) by the width a second time:
on a 16-byte buffer a `Uint16MemoryView` at offset 0 reports 4 elements where
8 two-byte elements are available. -/
theorem c5_length_divides_twice :
    memory_view_length 2 (List.replicate 16 0) 0 = some 4 ∧
      spec_view_length 2 16 0 = some 8 := by
  constructor <;> rfl

/-- C6: the claim states that `get`/`set` access the buffer at byte location
`offset + index * elementWidth`. The code instead divides the index by the
element width: on a `Uint16MemoryView` over bytes `[1, 0, 2, 0]` at offset 0,
`get(1)` reads element 0 (value 1) where the claimed location holds the
element of value 2. -/
theorem c6_location_divides_index :
    memory_view_get 2 [1, 0, 2, 0] 0 1 = some 1 ∧
      spec_view_get 2 [1, 0, 2, 0] 0 1 = some 2 := by
  constructor <;> rfl

/-- C7: the claim states that an out-of-range index fails with an
out-of-bounds error before any read or write. On a `Uint16MemoryView` over
the 4-byte buffer `[5, 0, 7, 0]` at offset 0, index 2 is out of range (its
claimed byte location 4 is past the buffer), yet the code's index division
aliases it onto element 1: `get(2)` silently reads 7 and `set(2, 9)` silently
writes the buffer, with no error raised. -/
theorem c7_out_of_range_not_rejected :
    memory_view_get 2 [5, 0, 7, 0] 0 2 = some 7 ∧
      memory_view_set 2 [5, 0, 7, 0] 0 2 9 = some [5, 0, 9, 0] ∧
      spec_view_get 2 [5, 0, 7, 0] 0 2 = none := by
  exact ⟨rfl, rfl, rfl⟩

/-- C9: for every memory view of element width 1, 2 or 4 and every index
within the view's current bounds, `set(i, v)` followed by `get(i)` returns
`v`, both for the unsigned views (value representable in the width) and for
the signed views (value in the signed range of the width). -/
theorem c9_set_get_round_trip (element_size : Nat)
    (hw : element_size = 1 ∨ element_size = 2 ∨ element_size = 4)
    (memory : List Nat) (offset index n : Nat)
    (hlen : memory_view_length element_size memory offset = some n) (hindex : index < n) :
    (∀ value : Nat, value < 2 ^ (8 * element_size) →
      ∃ memory2,
        memory_view_set element_size memory offset index value = some memory2 ∧
          memory_view_get element_size memory2 offset index = some value) ∧
    (∀ value : Int, -(2 ^ (8 * element_size - 1)) ≤ value →
        value < 2 ^ (8 * element_size - 1) →
      ∃ memory2,
        memory_view_set_signed element_size memory offset index value = some memory2 ∧
          memory_view_get_signed element_size memory2 offset index = some value) := by
  have hw1 : 1 ≤ element_size := by rcases hw with h | h | h <;> omega
  constructor
  · intro value hvalue
    exact set_get_raw element_size hw1 memory offset index n hlen hindex value hvalue
  · intro value h1 h2
    obtain ⟨memory2, hset, hget⟩ :=
      set_get_raw element_size hw1 memory offset index n hlen hindex
        (to_unsigned element_size value) (to_unsigned_lt element_size value)
    refine ⟨memory2, ?_, ?_⟩
    · rw [memory_view_set_signed]
      exact hset
    · rw [memory_view_get_signed, hget]
      simp [to_signed_to_unsigned element_size hw1 value h1 h2]

/-- C9 witness: on a `Uint16MemoryView` over an 8-byte buffer, `set(1, 300)`
then `get(1)` returns 300, and on the signed variant `set(1, -5)` then
`get(1)` returns -5. -/
theorem c9_set_get_round_trip_witness :
    (∃ memory2,
      memory_view_set 2 [0, 0, 0, 0, 0, 0, 0, 0] 0 1 300 = some memory2 ∧
        memory_view_get 2 memory2 0 1 = some 300) ∧
    (∃ memory2,
      memory_view_set_signed 2 [0, 0, 0, 0, 0, 0, 0, 0] 0 1 (-5) = some memory2 ∧
        memory_view_get_signed 2 memory2 0 1 = some (-5)) := by
  have h := c9_set_get_round_trip 2 (Or.inr (Or.inl rfl)) [0, 0, 0, 0, 0, 0, 0, 0] 0 1 2
    (by rfl) (by omega)
  exact ⟨h.1 300 (by norm_num), h.2 (-5) (by norm_num) (by norm_num)⟩

/-- A Python result that is neither a tuple nor `None` (the single-value
branch of the bridge's result interpretation). -/
def plain_result : PyObject → Bool
  | PyObject.tuple _ => false
  | PyObject.none => false
  | _ => true

/-- C3: every failure inside the import bridge — the host callable raising an
error, or a result-conversion failure in the tuple or single-value branch —
is caught at the bridge boundary and returned to the runtime as a
`wasmer::RuntimeError` trap carrying a message rendered from the Python
error; the bridge's return type admits no unhandled host-level exception. -/
theorem c3_bridge_catches_failures :
    (∀ (py_function : List PyObject → Except PyErr PyObject)
        (result_types : List WasmType) (arguments : List WasmValue) (error1 : PyErr),
      py_function (arguments.map to_py_object_api) = Except.error error1 →
      host_function_closure py_function result_types arguments =
        Except.error { message := io_error_string error1 }) ∧
    (∀ (py_function : List PyObject → Except PyErr PyObject)
        (result_types : List WasmType) (arguments : List WasmValue)
        (items : List PyObject) (error1 : PyErr),
      py_function (arguments.map to_py_object_api) = Except.ok (PyObject.tuple items) →
      mapM_except (fun p => to_wasm_value_api p.1 p.2) (items.zip result_types) =
        Except.error error1 →
      host_function_closure py_function result_types arguments =
        Except.error { message := io_error_string error1 }) ∧
    (∀ (py_function : List PyObject → Except PyErr PyObject) (ty : WasmType)
        (result_types : List WasmType) (arguments : List WasmValue)
        (single : PyObject) (error1 : PyErr),
      py_function (arguments.map to_py_object_api) = Except.ok single →
      plain_result single = true →
      to_wasm_value_api single ty = Except.error error1 →
      host_function_closure py_function (ty :: result_types) arguments =
        Except.error { message := io_error_string error1 }) := by
  refine ⟨?_, ?_, ?_⟩
  · intro py_function result_types arguments error1 hcall
    simp only [host_function_closure, hcall]
  · intro py_function result_types arguments items error1 hcall hconv
    simp only [host_function_closure, hcall, hconv]
  · intro py_function ty result_types arguments single error1 hcall hplain hconv
    cases single with
    | tuple items => simp [plain_result] at hplain
    | none => simp [plain_result] at hplain
    | int v => simp only [host_function_closure, hcall, hconv]
    | float b => simp only [host_function_closure, hcall, hconv]
    | wasmValue v => simp only [host_function_closure, hcall, hconv]
    | foreign d => simp only [host_function_closure, hcall, hconv]

/-- C3 witness: a host callable that raises is observed by the runtime as a
trap carrying the error's rendered message. -/
theorem c3_bridge_catches_failures_witness :
    host_function_closure (fun _ => Except.error (py_runtime_error "boom")) [] [] =
      Except.error { message := "boom" } :=
  c3_bridge_catches_failures.1 (fun _ => Except.error (py_runtime_error "boom")) [] []
    (py_runtime_error "boom") rfl

/-- C8 counterexample: the claim says that a host callable returning `None`
while the declared result sequence is non-empty makes the bridge raise a
fatal result-arity error. On the code, with declared results `[I32]` and a
callable returning `None`, the bridge returns successfully with an empty
result vector. -/
theorem c8_counterexample :
    host_function_closure (fun _ => Except.ok PyObject.none) [WasmType.I32] [] =
      Except.ok [] := rfl

/-- C8 amended: whenever the host callable returns `None` — whatever the
declared result sequence, empty or not — the bridge returns successfully
with an empty result vector; no result-arity error is raised at the bridge
(detecting the arity mismatch is left to the runtime's own signature
check). -/
theorem c8_none_result_returns_empty
    (py_function : List PyObject → Except PyErr PyObject)
    (result_types : List WasmType) (arguments : List WasmValue)
    (h : py_function (arguments.map to_py_object_api) = Except.ok PyObject.none) :
    host_function_closure py_function result_types arguments = Except.ok [] := by
  simp only [host_function_closure, h]

/-- C8 amended witness: `None` returned against the non-empty declared
results `[I32, I64]` yields a successful empty result vector. -/
theorem c8_none_result_returns_empty_witness :
    host_function_closure (fun _ => Except.ok PyObject.none) [WasmType.I32, WasmType.I64] [] =
      Except.ok [] :=
  c8_none_result_returns_empty (fun _ => Except.ok PyObject.none)
    [WasmType.I32, WasmType.I64] [] rfl

/-- C10: when the host callable returns a tuple, its components are paired
positionally with the declared result kinds up to the shorter of the two
lengths — no arity error is raised; surplus components are discarded and
surplus declared kinds produce no converted value. -/
theorem c10_tuple_zip_truncates
    (py_function : List PyObject → Except PyErr PyObject)
    (result_types : List WasmType) (arguments : List WasmValue)
    (items : List PyObject) (values : List WasmValue)
    (hcall : py_function (arguments.map to_py_object_api) = Except.ok (PyObject.tuple items))
    (hconv : mapM_except (fun p => to_wasm_value_api p.1 p.2) (items.zip result_types) =
      Except.ok values) :
    host_function_closure py_function result_types arguments = Except.ok values ∧
      values.length = min items.length result_types.length := by
  constructor
  · simp only [host_function_closure, hcall, hconv]
  · rw [mapM_except_ok_length _ _ _ hconv, List.length_zip]

/-- C10 witness: a three-component tuple against a single declared result
kind converts only the first component and succeeds. -/
theorem c10_tuple_zip_truncates_witness :
    host_function_closure
        (fun _ => Except.ok (PyObject.tuple [PyObject.int 1, PyObject.int 2, PyObject.int 3]))
        [WasmType.I32] [] = Except.ok [WasmValue.i32 1] ∧
      ([WasmValue.i32 1] : List WasmValue).length =
        min ([PyObject.int 1, PyObject.int 2, PyObject.int 3] : List PyObject).length
          ([WasmType.I32] : List WasmType).length :=
  c10_tuple_zip_truncates
    (fun _ => Except.ok (PyObject.tuple [PyObject.int 1, PyObject.int 2, PyObject.int 3]))
    [WasmType.I32] [] [PyObject.int 1, PyObject.int 2, PyObject.int 3]
    [WasmValue.i32 1] rfl rfl

/-- C4 counterexample: the claim says the host's native float annotation maps
to the double-width kind Float64; the code's lookup maps Python's native
float class token to Float32. -/
theorem c4_counterexample :
    annotation_value_to_type py_float_class_token = Except.ok WasmType.F32 ∧
      (Except.ok WasmType.F32 : Except PyErr WasmType) ≠ Except.ok WasmType.F64 := by
  refine ⟨rfl, ?_⟩
  intro h
  injection h with h2
  exact WasmType.noConfusion h2

/-- C4 amended: the annotation lookup maps the integer tokens (including the
native int class) to Int32, the explicit wide markers to Int64, the
single-precision markers and the native float class to Float32, the
double-precision markers to Float64, and every other token to an
unsupported-type error naming the offending token. -/
theorem c4_annotation_lookup :
    annotation_value_to_type "i32" = Except.ok WasmType.I32 ∧
    annotation_value_to_type "I32" = Except.ok WasmType.I32 ∧
    annotation_value_to_type py_int_class_token = Except.ok WasmType.I32 ∧
    annotation_value_to_type "i64" = Except.ok WasmType.I64 ∧
    annotation_value_to_type "I64" = Except.ok WasmType.I64 ∧
    annotation_value_to_type "f32" = Except.ok WasmType.F32 ∧
    annotation_value_to_type "F32" = Except.ok WasmType.F32 ∧
    annotation_value_to_type py_float_class_token = Except.ok WasmType.F32 ∧
    annotation_value_to_type "f64" = Except.ok WasmType.F64 ∧
    annotation_value_to_type "F64" = Except.ok WasmType.F64 ∧
    (∀ token : String, token ≠ "i32" → token ≠ "I32" → token ≠ py_int_class_token →
      token ≠ "i64" → token ≠ "I64" →
      token ≠ "f32" → token ≠ "F32" → token ≠ py_float_class_token →
      token ≠ "f64" → token ≠ "F64" →
      annotation_value_to_type token =
        Except.error (py_runtime_error ("Type `" ++ token ++ "` is not a supported type"))) := by
  refine ⟨rfl, rfl, rfl, rfl, rfl, rfl, rfl, rfl, rfl, rfl, ?_⟩
  intro token h1 h2 h3 h4 h5 h6 h7 h8 h9 h10
  simp [annotation_value_to_type, h1, h2, h3, h4, h5, h6, h7, h8, h9, h10]

/-- C4 amended witness: the unrecognized token `v128` fails with the
unsupported-type error naming it. -/
theorem c4_annotation_lookup_witness :
    annotation_value_to_type "v128" =
      Except.error (py_runtime_error ("Type `" ++ "v128" ++ "` is not a supported type")) :=
  c4_annotation_lookup.2.2.2.2.2.2.2.2.2.2 "v128" (by decide) (by decide) (by decide)
    (by decide) (by decide) (by decide) (by decide) (by decide) (by decide) (by decide)

/-- C1 counterexample: the claim says two or more results yield an ordered
host tuple. The legacy dispatcher `call_dyn_func`, on a call whose runtime
function returns the two results `I32(1), I32(2)`, returns the single host
value 1 — not the tuple `(1, 2)`. -/
theorem c1_counterexample :
    call_dyn_func "f" [] (fun _ => Except.ok [WasmValue.i32 1, WasmValue.i32 2]) [] =
        Except.ok (PyObject.int 1) ∧
      PyObject.int 1 ≠ PyObject.tuple [PyObject.int 1, PyObject.int 2] := by
  refine ⟨rfl, ?_⟩
  intro h
  exact PyObject.noConfusion h

/-- C1 amended: the api-level call operation (`Function.__call__`) maps the
result sequence to the host exactly as claimed — zero results to `None`, one
result to that single converted value, two or more to the ordered tuple of
all converted results; the legacy dispatcher (`call_dyn_func`) maps zero
results to `None` and otherwise returns only the first result converted,
never a tuple. -/
theorem c1_result_shapes :
    (∀ (params : List WasmType)
        (function_call_impl : List WasmValue → Except WasmerRuntimeError (List WasmValue))
        (arguments : List PyObject) (wasm_arguments results : List WasmValue),
      mapM_except (fun p => to_wasm_value_api p.1 p.2) (arguments.zip params) =
        Except.ok wasm_arguments →
      function_call_impl wasm_arguments = Except.ok results →
      Function_call params function_call_impl arguments =
        Except.ok (match results with
          | [] => PyObject.none
          | [result] => to_py_object_api result
          | manyResults => PyObject.tuple (manyResults.map to_py_object_api))) ∧
    (∀ (function_name : String) (parameters : List WasmType)
        (function_call_impl : List WasmValue → Except WasmerRuntimeError (List WasmValue))
        (arguments : List PyObject) (function_arguments results : List WasmValue),
      parameters.length = arguments.length →
      mapM_except (fun p => py_to_wasm_argument p.1 p.2) (parameters.zip arguments) =
        Except.ok function_arguments →
      function_call_impl function_arguments = Except.ok results →
      call_dyn_func function_name parameters function_call_impl arguments =
        Except.ok (match results with
          | [] => PyObject.none
          | result :: _ => wasm_to_py_object result)) := by
  constructor
  · intro params function_call_impl arguments wasm_arguments results hconv hcall
    simp only [Function_call, hconv, hcall]
    rcases results with _ | ⟨r, _ | ⟨r2, rest⟩⟩ <;> rfl
  · intro function_name parameters function_call_impl arguments function_arguments results
      hlen hconv hcall
    simp only [call_dyn_func]
    rw [if_neg (by omega), if_neg (by omega)]
    simp only [hconv, hcall]
    rcases results with _ | ⟨r, rest⟩ <;> rfl

/-- C1 amended witness: with two runtime results, the api call yields the
host tuple `(1, 2)` while the legacy dispatcher yields the single value 1. -/
theorem c1_result_shapes_witness :
    Function_call [] (fun _ => Except.ok [WasmValue.i32 1, WasmValue.i32 2]) [] =
        Except.ok (PyObject.tuple [PyObject.int 1, PyObject.int 2]) ∧
      call_dyn_func "g" [] (fun _ => Except.ok [WasmValue.i32 1, WasmValue.i32 2]) [] =
        Except.ok (PyObject.int 1) :=
  ⟨c1_result_shapes.1 [] (fun _ => Except.ok [WasmValue.i32 1, WasmValue.i32 2]) [] []
      [WasmValue.i32 1, WasmValue.i32 2] rfl rfl,
    c1_result_shapes.2 "g" [] (fun _ => Except.ok [WasmValue.i32 1, WasmValue.i32 2]) [] []
      [WasmValue.i32 1, WasmValue.i32 2] rfl rfl rfl⟩

/-- C2 counterexample: the claim says a call with more arguments than
declared parameters fails with an extra-arguments error before invoking the
wasm function. The api-level `Function.__call__`, given two arguments against
one declared parameter, invokes the function with the surplus argument
silently dropped: the runtime function observes exactly one argument and the
call succeeds. -/
theorem c2_counterexample :
    Function_call [WasmType.I32]
        (fun wasm_arguments => Except.ok [WasmValue.i32 (wasm_arguments.length : Int)])
        [PyObject.int 5, PyObject.int 7] =
      Except.ok (PyObject.int 1) := rfl

/-- C2 amended: the legacy dispatcher (`call_dyn_func`) checks the arity
before invoking and fails with the missing or extra arguments message carrying
the exact expected and supplied counts; the api-level `Function.__call__`
performs no arity check — arguments are zipped against the declared
parameters, so a call behaves exactly like the call on the arguments
truncated to the declared parameter count. -/
theorem c2_arity_checks :
    (∀ (function_name : String) (parameters : List WasmType)
        (function_call_impl : List WasmValue → Except WasmerRuntimeError (List WasmValue))
        (arguments : List PyObject),
      arguments.length < parameters.length →
      call_dyn_func function_name parameters function_call_impl arguments =
        Except.error (py_runtime_error
          (missing_arguments_message function_name parameters.length arguments.length))) ∧
    (∀ (function_name : String) (parameters : List WasmType)
        (function_call_impl : List WasmValue → Except WasmerRuntimeError (List WasmValue))
        (arguments : List PyObject),
      parameters.length < arguments.length →
      call_dyn_func function_name parameters function_call_impl arguments =
        Except.error (py_runtime_error
          (extra_arguments_message function_name parameters.length arguments.length))) ∧
    (∀ (params : List WasmType)
        (function_call_impl : List WasmValue → Except WasmerRuntimeError (List WasmValue))
        (arguments : List PyObject),
      params.length ≤ arguments.length →
      Function_call params function_call_impl arguments =
        Function_call params function_call_impl (arguments.take params.length)) := by
  refine ⟨?_, ?_, ?_⟩
  · intro function_name parameters function_call_impl arguments hcount
    simp only [call_dyn_func]
    rw [if_pos (by omega)]
  · intro function_name parameters function_call_impl arguments hcount
    simp only [call_dyn_func]
    rw [if_neg (by omega), if_pos (by omega)]
  · intro params function_call_impl arguments _hextra
    simp only [Function_call]
    rw [zip_take_of_le params.length arguments params (le_refl params.length)]

/-- C2 amended witness: a 2-parameter function called with 1 argument fails
with the exact-count missing message; a 0-parameter function called with 1
argument fails with the exact-count extra message; the api-level call with a
surplus argument equals the call on the truncated argument list. -/
theorem c2_arity_checks_witness :
    call_dyn_func "f" [WasmType.I32, WasmType.I32] (fun _ => Except.ok [])
        [PyObject.int 1] =
      Except.error (py_runtime_error (missing_arguments_message "f" 2 1)) ∧
    call_dyn_func "h" [] (fun _ => Except.ok []) [PyObject.int 1] =
      Except.error (py_runtime_error (extra_arguments_message "h" 0 1)) ∧
    Function_call [WasmType.I32] (fun _ => Except.ok []) [PyObject.int 5, PyObject.int 7] =
      Function_call [WasmType.I32] (fun _ => Except.ok []) [PyObject.int 5] :=
  ⟨c2_arity_checks.1 "f" [WasmType.I32, WasmType.I32] (fun _ => Except.ok [])
      [PyObject.int 1] (by decide),
    c2_arity_checks.2.1 "h" [] (fun _ => Except.ok []) [PyObject.int 1] (by decide),
    c2_arity_checks.2.2 [WasmType.I32] (fun _ => Except.ok [])
      [PyObject.int 5, PyObject.int 7] (by decide)⟩
